import Mathlib

/-!
Verification of the LED visual-feedback engine of xiaozhi-esp32
(src/main/led/circular_strip.cc, single_led.cc, gpio_led.cc) against its
natural-language specification.

The C++ code is shallowly embedded: `uint8_t` channels become `Nat` (every
operation below provably stays within the 8-bit range on in-range inputs, so
no wrap-around modelling is needed: halving never grows a value, and the
breathe increments/decrements are guarded by the bounds), `int` counters
become `Int`, the pixel vector becomes `List StripColor`, and each timer-tick
lambda becomes a state-transition function.  C++ static-duration locals
inside the effect lambdas are modelled as explicit state fields that persist
across effect installations, exactly as a function-local `static` does.
-/

/-- `StripColor` from circular_strip.h: three 8-bit channels. -/
structure StripColor where
  red : Nat
  green : Nat
  blue : Nat
deriving DecidableEq, Repr

/-- The all-zero color, produced by clearing the strip. -/
def blackColor : StripColor := ⟨0, 0, 0⟩

/-- One FadeOut halving of a pixel: `colors_[i].red /= 2` etc.
(circular_strip.cc lines 178-180, integer division). -/
def halveColor (c : StripColor) : StripColor :=
  ⟨c.red / 2, c.green / 2, c.blue / 2⟩

/-- The `all_off` test of the FadeOut lambda for one pixel
(circular_strip.cc line 183, negated). -/
def isBlack (c : StripColor) : Bool :=
  c.red == 0 && c.green == 0 && c.blue == 0

/-- Largest channel of one pixel. -/
def colorMax (c : StripColor) : Nat :=
  max c.red (max c.green c.blue)

/-- Largest channel value over a whole buffer. -/
def maxChannel (l : List StripColor) : Nat :=
  l.foldr (fun c m => max (colorMax c) m) 0

/-- ceil(log2 n): 0 for n ≤ 1, and ⌊log2 (n-1)⌋ + 1 for n ≥ 2.
Formalises the bound named by the claim. -/
def ceilLog2 : Nat → Nat
  | 0 => 0
  | 1 => 0
  | n + 2 => Nat.log2 (n + 1) + 1

/-- State of a `CircularStrip` running the FadeOut effect: the software
buffer `colors_`, what the physical LEDs show, and whether `strip_timer_`
is running. -/
structure FadeState where
  colors : List StripColor
  display : List StripColor
  timerOn : Bool
deriving DecidableEq, Repr

/-- One invocation of the FadeOut lambda (circular_strip.cc lines 172-198):
halve every channel of every pixel, write the result to the strip; if all
channels reached zero, clear the display and stop the timer, otherwise
refresh the display. -/
def fadeOutStep (s : FadeState) : FadeState :=
  let colors := s.colors.map halveColor
  if colors.all isBlack then
    { colors := colors
      display := List.replicate colors.length blackColor
      timerOn := false }
  else
    { colors := colors, display := colors, timerOn := s.timerOn }

/-- `CircularStrip::FadeOut` (lines 169-199): `StartStripTask` installs the
lambda and starts the periodic timer; the buffer is left as it was. -/
def fadeOutInstall (colors display : List StripColor) : FadeState :=
  { colors := colors, display := display, timerOn := true }

theorem StripColor.eta (c : StripColor) :
    (⟨c.red, c.green, c.blue⟩ : StripColor) = c := rfl

theorem fadeOutStep_colors (s : FadeState) :
    (fadeOutStep s).colors = s.colors.map halveColor := by
  unfold fadeOutStep
  dsimp only []
  split <;> rfl

theorem fadeOut_iterate_colors (s : FadeState) (k : Nat) :
    (fadeOutStep^[k] s).colors
      = s.colors.map (fun c => ⟨c.red / 2 ^ k, c.green / 2 ^ k, c.blue / 2 ^ k⟩) := by
  induction k with
  | zero =>
      simp [StripColor.eta]
  | succ k ih =>
      rw [Function.iterate_succ_apply', fadeOutStep_colors, ih, List.map_map]
      apply List.map_congr_left
      intro c _
      show halveColor _ = _
      unfold halveColor
      simp [Nat.div_div_eq_div_mul, Nat.pow_succ]

theorem le_maxChannel_of_mem {l : List StripColor} {c : StripColor}
    (h : c ∈ l) : colorMax c ≤ maxChannel l := by
  induction l with
  | nil => cases h
  | cons a t ih =>
      rcases List.mem_cons.mp h with rfl | h
      · exact le_max_left _ _
      · exact le_trans (ih h) (le_max_right _ _)

theorem div_two_pow_log2_succ {v m : Nat} (h : v ≤ m) :
    v / 2 ^ (Nat.log2 m + 1) = 0 := by
  apply Nat.div_eq_of_lt
  calc v ≤ m := h
    _ < 2 ^ (Nat.log2 m + 1) := by
        rw [Nat.log2_eq_log_two]
        exact Nat.lt_pow_succ_log_self (by norm_num) m

theorem fadeOut_all_black (init : List StripColor) (d : List StripColor) :
    ((fadeOutStep^[Nat.log2 (maxChannel init) + 1] (fadeOutInstall init d)).colors.all
      isBlack) = true := by
  rw [fadeOut_iterate_colors]
  rw [List.all_eq_true]
  intro c hc
  rcases List.mem_map.mp hc with ⟨a, ha, rfl⟩
  have h1 : a.red ≤ maxChannel init :=
    le_trans (le_max_left _ _) (le_maxChannel_of_mem ha)
  have h2 : a.green ≤ maxChannel init :=
    le_trans (le_trans (le_max_left _ _) (le_max_right _ _)) (le_maxChannel_of_mem ha)
  have h3 : a.blue ≤ maxChannel init :=
    le_trans (le_trans (le_max_right _ _) (le_max_right _ _)) (le_maxChannel_of_mem ha)
  simp [isBlack, div_two_pow_log2_succ h1, div_two_pow_log2_succ h2,
    div_two_pow_log2_succ h3]

theorem map_halve_of_all_black {l : List StripColor} (h : l.all isBlack = true) :
    l.map halveColor = l := by
  have hmem : ∀ c ∈ l, halveColor c = c := by
    intro c hc
    have hb := List.all_eq_true.mp h c hc
    cases c with
    | mk r g b =>
        simp only [isBlack, Bool.and_eq_true, beq_iff_eq] at hb
        obtain ⟨⟨h1, h2⟩, h3⟩ := hb
        subst h1; subst h2; subst h3
        rfl
  calc l.map halveColor = l.map id := List.map_congr_left hmem
    _ = l := List.map_id l

theorem fadeOutStep_of_all_black {t : FadeState}
    (h : ((t.colors.map halveColor).all isBlack) = true) :
    fadeOutStep t
      = { colors := t.colors.map halveColor
          display := List.replicate (t.colors.map halveColor).length blackColor
          timerOn := false } := by
  unfold fadeOutStep
  dsimp only []
  rw [if_pos h]

theorem fadeOutStep_final_props (t : FadeState)
    (h : ((t.colors.map halveColor).all isBlack) = true) :
    (fadeOutStep t).timerOn = false ∧
    (fadeOutStep t).display = List.replicate t.colors.length blackColor ∧
    fadeOutStep (fadeOutStep t) = fadeOutStep t := by
  have hfix : fadeOutStep (fadeOutStep t) = fadeOutStep t := by
    rw [fadeOutStep_of_all_black h]
    have h2 : ((({ colors := t.colors.map halveColor
                   display := List.replicate (t.colors.map halveColor).length blackColor
                   timerOn := false } : FadeState).colors.map halveColor).all isBlack)
        = true := by
      dsimp only []
      rw [map_halve_of_all_black h]
      exact h
    rw [fadeOutStep_of_all_black h2]
    dsimp only []
    rw [map_halve_of_all_black h]
  refine ⟨?_, ?_, hfix⟩
  · rw [fadeOutStep_of_all_black h]
  · rw [fadeOutStep_of_all_black h]
    dsimp only []
    rw [List.length_map]

/-- Claim C1 (amended): for every initial buffer, FadeOut drives every
channel of every pixel to exactly zero within `⌊log2 m⌋ + 1` ticks, where
`m` is the largest channel value of the initial buffer (this is the
bit-length of `m`; equivalently `ceil(log2 (m+1))`; for 8-bit channels it
is at most 8).  Each tick halves every channel with integer division; on
the tick at which everything reaches zero, the step clears the display and
stops the timer itself, and one further tick delivered manually changes
nothing at all (the reached state is a fixpoint of the step). -/
theorem fadeOut_terminates_bitlength (init d : List StripColor) :
    (∀ s : FadeState, (fadeOutStep s).colors = s.colors.map halveColor) ∧
    ((fadeOutStep^[Nat.log2 (maxChannel init) + 1] (fadeOutInstall init d)).colors.all
      isBlack) = true ∧
    (fadeOutStep^[Nat.log2 (maxChannel init) + 1] (fadeOutInstall init d)).timerOn = false ∧
    (fadeOutStep^[Nat.log2 (maxChannel init) + 1] (fadeOutInstall init d)).display
      = List.replicate init.length blackColor ∧
    fadeOutStep (fadeOutStep^[Nat.log2 (maxChannel init) + 1] (fadeOutInstall init d))
      = fadeOutStep^[Nat.log2 (maxChannel init) + 1] (fadeOutInstall init d) := by
  refine ⟨fadeOutStep_colors, fadeOut_all_black init d, ?_⟩
  have hlen : ∀ k, (fadeOutStep^[k] (fadeOutInstall init d)).colors.length = init.length := by
    intro k
    rw [fadeOut_iterate_colors]
    exact List.length_map _ _
  have hsucc :
      fadeOutStep^[Nat.log2 (maxChannel init) + 1] (fadeOutInstall init d)
        = fadeOutStep (fadeOutStep^[Nat.log2 (maxChannel init)] (fadeOutInstall init d)) :=
    Function.iterate_succ_apply' _ _ _
  have hcond :
      (((fadeOutStep^[Nat.log2 (maxChannel init)] (fadeOutInstall init d)).colors.map
        halveColor).all isBlack) = true := by
    have hb := fadeOut_all_black init d
    rwa [hsucc, fadeOutStep_colors] at hb
  have hprops := fadeOutStep_final_props _ hcond
  refine ⟨?_, ?_, ?_⟩
  · rw [hsucc]
    exact hprops.1
  · rw [hsucc, hprops.2.1, hlen]
  · rw [hsucc]
    exact hprops.2.2

/-- Claim C1 counterexample: for the one-pixel buffer `{4,0,0}` the
claimed bound `ceil(log2 4) = 2` ticks is not enough: after two halvings
the red channel is `4 / 2 / 2 = 1`, not zero. -/
theorem fadeOut_ceil_log2_counterexample :
    ceilLog2 (maxChannel [(⟨4, 0, 0⟩ : StripColor)]) = 2 ∧
    ((fadeOutStep^[ceilLog2 (maxChannel [(⟨4, 0, 0⟩ : StripColor)])]
      (fadeOutInstall [⟨4, 0, 0⟩] [⟨4, 0, 0⟩])).colors.all isBlack) = false := by
  have h : ceilLog2 (maxChannel [(⟨4, 0, 0⟩ : StripColor)]) = 2 := by
    show ceilLog2 4 = 2
    show Nat.log2 3 + 1 = 2
    simp [Nat.log2]
  refine ⟨h, ?_⟩
  rw [h]
  decide

/-- Algorithm state of the Breathe lambda (circular_strip.cc lines 235-279):
the function-local statics `increase` and `color`.  On a fresh engine the
first tick sees `increase = true` and `color = low`. -/
structure BreatheState where
  increase : Bool
  color : StripColor
deriving DecidableEq, Repr

/-- Per-channel increment of the Breathe lambda: bump by one only while
strictly below the bound (lines 243-251). -/
def bumpUp (cur bound : Nat) : Nat :=
  if cur < bound then cur + 1 else cur

/-- Per-channel decrement of the Breathe lambda: drop by one only while
strictly above the bound (lines 259-267). -/
def bumpDown (cur bound : Nat) : Nat :=
  if bound < cur then cur - 1 else cur

/-- One invocation of the Breathe lambda (circular_strip.cc lines 235-279):
move each channel one step toward the current bound, then reverse the
direction exactly when the whole color equals that bound.  (The tick also
writes `color` to every pixel and refreshes; the claim concerns only the
algorithm state, so the pixel write is not modelled here.) -/
def breatheStep (low high : StripColor) (s : BreatheState) : BreatheState :=
  if s.increase then
    let c : StripColor :=
      ⟨bumpUp s.color.red high.red, bumpUp s.color.green high.green,
        bumpUp s.color.blue high.blue⟩
    { increase := if c = high then false else true, color := c }
  else
    let c : StripColor :=
      ⟨bumpDown s.color.red low.red, bumpDown s.color.green low.green,
        bumpDown s.color.blue low.blue⟩
    { increase := if c = low then true else false, color := c }

/-- Fresh-engine initial state of the Breathe statics for bounds starting
at `low`. -/
def breatheInit (low : StripColor) : BreatheState :=
  { increase := true, color := low }

/-- Claim C4: with `low = {0,0,0}` and `high = {10,10,10}` on a fresh
engine, 10 ticks reach exactly `high`, 10 further ticks return exactly to
`low`, and the direction flag flips on a tick only if the color produced
by that tick equals the bound currently being approached (all three
channels simultaneously). -/
theorem breathe_symmetry :
    ((breatheStep ⟨0, 0, 0⟩ ⟨10, 10, 10⟩)^[10] (breatheInit ⟨0, 0, 0⟩)).color
        = (⟨10, 10, 10⟩ : StripColor) ∧
    ((breatheStep ⟨0, 0, 0⟩ ⟨10, 10, 10⟩)^[20] (breatheInit ⟨0, 0, 0⟩)).color
        = (⟨0, 0, 0⟩ : StripColor) ∧
    ∀ s : BreatheState,
      (breatheStep ⟨0, 0, 0⟩ ⟨10, 10, 10⟩ s).increase ≠ s.increase →
      (breatheStep ⟨0, 0, 0⟩ ⟨10, 10, 10⟩ s).color
        = (if s.increase then (⟨10, 10, 10⟩ : StripColor) else ⟨0, 0, 0⟩) := by
  refine ⟨by decide, by decide, ?_⟩
  intro s hflip
  unfold breatheStep at hflip ⊢
  by_cases hinc : s.increase
  · simp only [hinc, if_true]
    simp only [hinc, if_true] at hflip
    by_cases hc :
        (⟨bumpUp s.color.red 10, bumpUp s.color.green 10, bumpUp s.color.blue 10⟩
          : StripColor) = ⟨10, 10, 10⟩
    · simp [hc]
    · simp [hc] at hflip
  · simp only [hinc, if_false, Bool.false_eq_true]
    simp only [hinc, if_false, Bool.false_eq_true] at hflip
    by_cases hc :
        (⟨bumpDown s.color.red 0, bumpDown s.color.green 0, bumpDown s.color.blue 0⟩
          : StripColor) = ⟨0, 0, 0⟩
    · simp [hc]
    · simp [hc] at hflip

/-- Witness for C4: at the state whose color already equals `high` while
increasing, the tick flips the direction, and the theorem then forces the
color at that tick to be exactly `high`. -/
theorem breathe_symmetry_witness :
    (breatheStep ⟨0, 0, 0⟩ ⟨10, 10, 10⟩ ⟨true, ⟨10, 10, 10⟩⟩).color
      = (⟨10, 10, 10⟩ : StripColor) := by
  have h := breathe_symmetry.2.2 ⟨true, ⟨10, 10, 10⟩⟩ (by decide)
  simpa using h

/-- Algorithm state of the Scroll effect: the function-local static
`offset` (circular_strip.cc line 303) and the engine buffer `colors_`.
On a fresh engine the first tick sees `offset = 0`. -/
structure ScrollState where
  offset : Nat
  colors : List StripColor
deriving DecidableEq, Repr

/-- The buffer painted by one Scroll tick (circular_strip.cc lines
306-314): fill all `n` pixels with `low`, then set the `length` pixels at
indices `(offset + j) % n` to `high`. -/
def scrollPaint (low high : StripColor) (length n offset : Nat) : List StripColor :=
  (List.range length).foldl (fun cs j => cs.set ((offset + j) % n) high)
    (List.replicate n low)

/-- One invocation of the Scroll lambda (circular_strip.cc lines 301-323):
repaint the buffer with the window at the current offset, push it to the
LEDs, then advance the offset by one modulo the pixel count. -/
def scrollStep (low high : StripColor) (length n : Nat) (s : ScrollState) : ScrollState :=
  { offset := (s.offset + 1) % n
    colors := scrollPaint low high length n s.offset }

/-- `CircularStrip::Scroll` (lines 292-324): before starting the timer the
buffer is filled with `low`; the static `offset` is 0 on a fresh engine. -/
def scrollInstall (low : StripColor) (n : Nat) : ScrollState :=
  { offset := 0, colors := List.replicate n low }

/-- Concrete background color used for closed scroll statements. -/
def scrollLowC : StripColor := ⟨0, 0, 0⟩

/-- Concrete window color used for closed scroll statements. -/
def scrollHighC : StripColor := ⟨4, 4, 32⟩

/-- Claim C3 counterexample: immediately after installing
`Scroll(low, high, 3)` on a fresh 6-pixel engine — that is, after
`offset = 0` ticks — pixel 0 is still the background color, not `high`:
the claimed window position is reached only one tick later. -/
theorem scroll_offset_counterexample :
    ¬ (((scrollStep scrollLowC scrollHighC 3 6)^[0]
        (scrollInstall scrollLowC 6)).colors.getD 0 scrollLowC = scrollHighC) := by
  decide

/-- Claim C3 (amended): on a fresh 6-pixel engine running
`Scroll(low, high, 3)`, after `offset + 1` ticks (for every
`offset ∈ [0, 6)`) the pixels at indices `offset, (offset+1) % 6,
(offset+2) % 6` equal `high` and all others equal `low`; immediately after
installation (0 ticks) all pixels are `low`; and each tick advances the
window start by exactly one pixel, wrapping modulo the pixel count. -/
theorem scroll_window_after_ticks (low high : StripColor) (off : Nat) (h : off < 6) :
    ((scrollStep low high 3 6)^[off + 1] (scrollInstall low 6)).colors
      = (List.range 6).map
          (fun i => if i = off ∨ i = (off + 1) % 6 ∨ i = (off + 2) % 6 then high else low) ∧
    (scrollInstall low 6).colors = List.replicate 6 low ∧
    ∀ s : ScrollState, (scrollStep low high 3 6 s).offset = (s.offset + 1) % 6 := by
  refine ⟨?_, rfl, fun s => rfl⟩
  interval_cases off <;> with_unfolding_all rfl

/-- Witness for C3: the amended window law evaluated at `offset = 2` with
concrete colors: after 3 ticks pixels 2, 3, 4 are the window color. -/
theorem scroll_window_witness :
    ((scrollStep scrollLowC scrollHighC 3 6)^[2 + 1] (scrollInstall scrollLowC 6)).colors
      = (List.range 6).map
          (fun i => if i = 2 ∨ i = (2 + 1) % 6 ∨ i = (2 + 2) % 6 then scrollHighC
            else scrollLowC) :=
  (scroll_window_after_ticks scrollLowC scrollHighC 2 (by decide)).1

/-- State of a `CircularStrip` running the Blink effect.  `staticOn` is the
function-local `static bool on = true` of the blink lambda
(circular_strip.cc line 143): a static-duration local of the closure type,
initialized once for the whole program and NOT re-initialized when the
effect is installed again. -/
structure BlinkEngine where
  staticOn : Bool
  colors : List StripColor
  display : List StripColor
  timerOn : Bool
deriving DecidableEq, Repr

/-- `CircularStrip::Blink` (circular_strip.cc lines 132-160): fill the
buffer with the color, then `StartStripTask` installs the lambda and
starts the timer.  The static `on` is untouched by installation. -/
def blinkInstall (e : BlinkEngine) (color : StripColor) : BlinkEngine :=
  { e with colors := List.replicate e.colors.length color, timerOn := true }

/-- One invocation of the Blink lambda (lines 142-159): if `on`, push the
buffer to the LEDs, else clear them; then toggle `on`. -/
def blinkTick (e : BlinkEngine) : BlinkEngine :=
  if e.staticOn then
    { e with display := e.colors, staticOn := false }
  else
    { e with display := List.replicate e.display.length blackColor, staticOn := true }

/-- A fresh two-pixel engine: the static `on` starts `true`, the strip is
cleared by the constructor, no timer runs. -/
def freshBlinkEngine : BlinkEngine :=
  { staticOn := true
    colors := List.replicate 2 blackColor
    display := List.replicate 2 blackColor
    timerOn := false }

/-- Concrete color of the first blink installation. -/
def blinkColorA : StripColor := ⟨4, 4, 32⟩

/-- Concrete color of the second blink installation. -/
def blinkColorB : StripColor := ⟨4, 32, 4⟩

/-- Claim C2, evaluated at the failing input: on a fresh engine install
`Blink(A)`, deliver one tick (the "on" phase shows, the static flips to
`false`), then re-install `Blink(B)`.  The first tick of the fresh
installation shows the OFF phase — the display goes black instead of
showing `B` — because the lambda's static `on` persisted across the
re-installation.  The claimed restart from the "on" phase is exactly what
does not happen. -/
theorem blink_static_phase_persists :
    (blinkTick (blinkInstall (blinkTick (blinkInstall freshBlinkEngine blinkColorA))
        blinkColorB)).display
      = List.replicate 2 blackColor ∧
    (blinkTick (blinkInstall (blinkTick (blinkInstall freshBlinkEngine blinkColorA))
        blinkColorB)).display
      ≠ List.replicate 2 blinkColorB ∧
    (blinkTick (blinkInstall freshBlinkEngine blinkColorB)).display
      = List.replicate 2 blinkColorB := by
  refine ⟨by decide, by decide, by decide⟩

/-- Fault raised by an out-of-range write through `std::vector::operator[]`
(undefined behavior in the source). -/
inductive StripFault
  | outOfBoundsWrite
deriving DecidableEq, Repr

/-- Engine state for `SetSingleColor`: the software buffer and the timer
flag. -/
structure StripState where
  colors : List StripColor
  timerOn : Bool
deriving DecidableEq, Repr

/-- `CircularStrip::SetSingleColor` (circular_strip.cc lines 112-122):
lock, stop the timer, then `colors_[index] = color` and a hardware
set-pixel/refresh.  The source performs NO bounds check of its own; the
`index < length` guard below is the semantics of `std::vector::operator[]`
itself, whose out-of-range use is an out-of-bounds write (undefined
behavior), modelled as a fault.  No warning is logged on either path. -/
def setSingleColor (s : StripState) (index : Nat) (color : StripColor) :
    Except StripFault StripState :=
  if index < s.colors.length then
    Except.ok { colors := s.colors.set index color, timerOn := false }
  else
    Except.error StripFault.outOfBoundsWrite

/-- Claim C5, evaluated at the failing input: on a 2-pixel strip,
`SetSingleColor(2, color)` does not take a checked no-op-plus-warning
path; it reaches the unchecked buffer write out of range (undefined
behavior).  In range, by contrast, the operation stops the timer and
writes the one pixel. -/
theorem setSingleColor_out_of_range_faults :
    setSingleColor { colors := List.replicate 2 blackColor, timerOn := true } 2 blinkColorA
      = Except.error StripFault.outOfBoundsWrite ∧
    setSingleColor { colors := List.replicate 2 blackColor, timerOn := true } 1 blinkColorA
      = Except.ok { colors := [blackColor, blinkColorA], timerOn := false } := by
  refine ⟨rfl, rfl⟩

/-- Observable actions of the engine code, in program order: mutex
operations, timer control, writes to `colors_`, installing the step
closure, and hardware writes. -/
inductive LedEvent
  | lockAcquire
  | lockRelease
  | timerStop
  | timerStart
  | bufferWrite
  | installStep
  | hwWrite
deriving DecidableEq, Repr

/-- Checks that every `bufferWrite` of a trace happens while at least one
lock is held (`depth` counts currently held acquisitions). -/
def writesLocked : List LedEvent → Nat → Bool
  | [], _ => true
  | LedEvent.lockAcquire :: es, depth => writesLocked es (depth + 1)
  | LedEvent.lockRelease :: es, depth => writesLocked es (depth - 1)
  | LedEvent.bufferWrite :: es, depth => decide (0 < depth) && writesLocked es depth
  | _ :: es, depth => writesLocked es depth

/-- Event trace of `CircularStrip::Blink` on an `n`-pixel strip
(circular_strip.cc lines 132-160): the loop `colors_[i] = color` runs
BEFORE `StartStripTask`, which is where the `lock_guard` lives
(lines 341-346). -/
def blinkTrace (n : Nat) : List LedEvent :=
  List.replicate n LedEvent.bufferWrite ++
    [LedEvent.lockAcquire, LedEvent.timerStop, LedEvent.installStep,
      LedEvent.timerStart, LedEvent.lockRelease]

/-- Event trace of `CircularStrip::Scroll` (lines 292-324): same shape as
Blink — the background fill of `colors_` precedes the locked
`StartStripTask`. -/
def scrollTrace (n : Nat) : List LedEvent :=
  List.replicate n LedEvent.bufferWrite ++
    [LedEvent.lockAcquire, LedEvent.timerStop, LedEvent.installStep,
      LedEvent.timerStart, LedEvent.lockRelease]

/-- Event trace of `CircularStrip::SetAllColor` (lines 88-101): lock, stop
the timer, then per pixel a buffer write and a hardware write, then the
refresh, all before the guard releases. -/
def setAllColorTrace (n : Nat) : List LedEvent :=
  [LedEvent.lockAcquire, LedEvent.timerStop] ++
    (List.replicate n [LedEvent.bufferWrite, LedEvent.hwWrite]).flatten ++
    [LedEvent.hwWrite, LedEvent.lockRelease]

/-- Event trace of one timer tick running the FadeOut lambda (constructor
callback, lines 45-55, wraps the step in the same lock; the lambda then
mutates every pixel and writes hardware). -/
def fadeTickTrace (n : Nat) : List LedEvent :=
  [LedEvent.lockAcquire] ++
    (List.replicate n [LedEvent.bufferWrite, LedEvent.hwWrite]).flatten ++
    [LedEvent.hwWrite, LedEvent.lockRelease]

/-- Claim C6, evaluated at the failing input (a 2-pixel strip): the buffer
fills performed by `Blink` and `Scroll` happen outside the engine's lock
— `writesLocked` rejects their traces — while `SetAllColor` and the
timer-tick callback do keep every buffer mutation under the lock.  So it
is not true that every mutation of the pixel buffer occurs while the lock
is held. -/
theorem blink_buffer_write_outside_lock :
    writesLocked (blinkTrace 2) 0 = false ∧
    writesLocked (scrollTrace 2) 0 = false ∧
    writesLocked (setAllColorTrace 2) 0 = true ∧
    writesLocked (fadeTickTrace 2) 0 = true := by
  refine ⟨by decide, by decide, by decide, by decide⟩

/-- The device-state enumeration consumed by every `OnStateChanged`.
`unknown` stands for any value the switch's `default` branch catches. -/
inductive DeviceState
  | starting
  | wifiConfiguring
  | idle
  | connecting
  | listening
  | audioTesting
  | speaking
  | upgrading
  | activating
  | unknown
deriving DecidableEq, Repr

/-- The effect a `CircularStrip::OnStateChanged` dispatch installs. -/
inductive StripEffect
  | scrollFx (low high : StripColor) (length interval : Nat)
  | blinkFx (color : StripColor) (interval : Nat)
  | fadeOutFx (interval : Nat)
  | setAllFx (color : StripColor)
deriving DecidableEq, Repr

/-- `CircularStrip::OnStateChanged` (circular_strip.cc lines 380-447) as a
binding from device state to the installed effect; `db`/`lb` are
`default_brightness_`/`low_brightness_`.  The function never consults the
voice-detected flag, but it is threaded through (`v`) so the statements
can quantify over it.  `none` is the warning-only default branch. -/
def circularBinding (db lb : Nat) (v : Bool) : DeviceState → Option StripEffect
  | DeviceState.starting => some (StripEffect.scrollFx ⟨0, 0, 0⟩ ⟨lb, lb, db⟩ 3 100)
  | DeviceState.wifiConfiguring => some (StripEffect.blinkFx ⟨lb, lb, db⟩ 500)
  | DeviceState.idle => some (StripEffect.fadeOutFx 50)
  | DeviceState.connecting => some (StripEffect.setAllFx ⟨lb, lb, db⟩)
  | DeviceState.listening => some (StripEffect.setAllFx ⟨db, lb, lb⟩)
  | DeviceState.audioTesting => some (StripEffect.setAllFx ⟨db, lb, lb⟩)
  | DeviceState.speaking => some (StripEffect.setAllFx ⟨lb, db, lb⟩)
  | DeviceState.upgrading => some (StripEffect.blinkFx ⟨lb, db, lb⟩ 100)
  | DeviceState.activating => some (StripEffect.blinkFx ⟨lb, db, lb⟩ 500)
  | DeviceState.unknown => none

/-- The effect a `SingleLed::OnStateChanged` dispatch applies. -/
inductive SingleEffect
  | continuousBlinkFx (r g b interval : Nat)
  | turnOnFx (r g b : Nat)
  | turnOffFx
deriving DecidableEq, Repr

/-- `SingleLed::OnStateChanged` (single_led.cc lines 235-294) as a binding
from device state and the voice-detected flag to the applied effect, with
the constants DEFAULT_BRIGHTNESS = 4, HIGH_BRIGHTNESS = 16,
LOW_BRIGHTNESS = 2 from single_led.cc. -/
def singleBinding (v : Bool) : DeviceState → Option SingleEffect
  | DeviceState.starting => some (SingleEffect.continuousBlinkFx 0 0 4 100)
  | DeviceState.wifiConfiguring => some (SingleEffect.continuousBlinkFx 0 0 4 500)
  | DeviceState.idle => some SingleEffect.turnOffFx
  | DeviceState.connecting => some (SingleEffect.turnOnFx 0 0 4)
  | DeviceState.listening =>
      some (if v then SingleEffect.turnOnFx 16 0 0 else SingleEffect.turnOnFx 2 0 0)
  | DeviceState.audioTesting =>
      some (if v then SingleEffect.turnOnFx 16 0 0 else SingleEffect.turnOnFx 2 0 0)
  | DeviceState.speaking => some (SingleEffect.turnOnFx 0 4 0)
  | DeviceState.upgrading => some (SingleEffect.continuousBlinkFx 0 4 0 100)
  | DeviceState.activating => some (SingleEffect.continuousBlinkFx 0 4 0 500)
  | DeviceState.unknown => none

/-- The action a `GpioLed::OnStateChanged` dispatch performs after its
`SetBrightness` call.  `turnOffFx` exists as a method of the class but is
never selected by any state (the idle `TurnOff()` is commented out). -/
inductive GpioAction
  | continuousBlinkFx (interval : Nat)
  | turnOnFx
  | startFadeFx
  | turnOffFx
deriving DecidableEq, Repr

/-- `GpioLed::OnStateChanged` (gpio_led.cc lines 377-439) as a binding
from device state and the voice flag to the brightness percentage passed
to `SetBrightness` plus the follow-up action, with the constants
DEFAULT = 50, HIGH = 100, LOW = 10, IDLE = 5, SPEAKING = 75,
UPGRADING = 25, ACTIVATING = 35 from gpio_led.cc. -/
def gpioBinding (v : Bool) : DeviceState → Option (Nat × GpioAction)
  | DeviceState.starting => some (50, GpioAction.continuousBlinkFx 100)
  | DeviceState.wifiConfiguring => some (50, GpioAction.continuousBlinkFx 500)
  | DeviceState.idle => some (5, GpioAction.turnOnFx)
  | DeviceState.connecting => some (50, GpioAction.turnOnFx)
  | DeviceState.listening => some ((if v then 100 else 10), GpioAction.startFadeFx)
  | DeviceState.audioTesting => some ((if v then 100 else 10), GpioAction.startFadeFx)
  | DeviceState.speaking => some (75, GpioAction.turnOnFx)
  | DeviceState.upgrading => some (25, GpioAction.continuousBlinkFx 100)
  | DeviceState.activating => some (35, GpioAction.continuousBlinkFx 500)
  | DeviceState.unknown => none

/-- Whether a gpio action is "FadeOut or TurnOff" in the claim's sense:
only `turnOffFx` qualifies (the class has no fade-to-off effect; its
`StartFadeTask` is the continuous breathing ramp). -/
def gpioIsOffLike : GpioAction → Bool
  | GpioAction.turnOffFx => true
  | _ => false

/-- Whether a gpio action leaves the LED at a solid steady level. -/
def gpioIsSolid : GpioAction → Bool
  | GpioAction.turnOnFx => true
  | _ => false

/-- Claim C7 counterexample: in the idle state the PWM variant neither
fades out nor turns off — it applies `SetBrightness(5)` followed by
`TurnOn()`, a dim solid-on (gpio_led.cc lines 395-399, with the
`TurnOff()` alternative commented out). -/
theorem gpio_idle_counterexample :
    gpioBinding true DeviceState.idle = some (5, GpioAction.turnOnFx) ∧
    (gpioBinding true DeviceState.idle).map (fun p => gpioIsOffLike p.2) = some false := by
  refine ⟨rfl, rfl⟩

/-- Claim C7 (amended): in the idle state the circular-strip variant
applies `FadeOut(50)` and the single-LED variant applies `TurnOff`, but
the PWM variant applies a solid-on at the idle brightness (5 percent),
not a fade-out and not a turn-off. -/
theorem idle_binding_by_variant (db lb : Nat) (v : Bool) :
    circularBinding db lb v DeviceState.idle = some (StripEffect.fadeOutFx 50) ∧
    singleBinding v DeviceState.idle = some SingleEffect.turnOffFx ∧
    gpioBinding v DeviceState.idle = some (5, GpioAction.turnOnFx) ∧
    (gpioBinding v DeviceState.idle).map (fun p => gpioIsOffLike p.2) = some false := by
  refine ⟨rfl, rfl, rfl, rfl⟩

/-- Claim C8 counterexample: in the listening state the circular-strip
variant applies the same solid red whether or not voice is detected (it
never reads the flag, circular_strip.cc lines 414-420), and the PWM
variant does not apply a solid color at all — it starts the hardware fade
ramp (gpio_led.cc line 417, with `TurnOn()` commented out). -/
theorem listening_solid_counterexample :
    circularBinding 32 4 true DeviceState.listening
      = circularBinding 32 4 false DeviceState.listening ∧
    (gpioBinding true DeviceState.listening).map (fun p => gpioIsSolid p.2)
      = some false := by
  refine ⟨rfl, rfl⟩

/-- Claim C8 (amended): in the listening and audio-testing states, only
the single-LED variant branches on `voice_detected` with a solid color
(red at brightness 16 when voice is detected, 2 otherwise); the
circular-strip variant applies a fixed solid red independent of the flag;
the PWM variant branches on the flag only in the stored duty (100 vs 10
percent) and applies the hardware fade ramp, not a solid color. -/
theorem listening_binding_by_variant (db lb : Nat) (v : Bool) :
    singleBinding v DeviceState.listening
      = some (if v then SingleEffect.turnOnFx 16 0 0 else SingleEffect.turnOnFx 2 0 0) ∧
    singleBinding v DeviceState.audioTesting
      = some (if v then SingleEffect.turnOnFx 16 0 0 else SingleEffect.turnOnFx 2 0 0) ∧
    circularBinding db lb v DeviceState.listening
      = some (StripEffect.setAllFx ⟨db, lb, lb⟩) ∧
    circularBinding db lb v DeviceState.audioTesting
      = some (StripEffect.setAllFx ⟨db, lb, lb⟩) ∧
    gpioBinding v DeviceState.listening
      = some ((if v then 100 else 10), GpioAction.startFadeFx) ∧
    gpioBinding v DeviceState.audioTesting
      = some ((if v then 100 else 10), GpioAction.startFadeFx) := by
  refine ⟨rfl, rfl, rfl, rfl, rfl, rfl⟩

/-- State of a `GpioLed`: the initialization flag, the stored target duty
`duty_`, the duty the LEDC hardware is currently driving, and the
blink/fade activity flags (gpio_led.h fields). -/
structure GpioLedState where
  initialized : Bool
  duty : Nat
  hwDuty : Nat
  fadeActive : Bool
  blinkTimerOn : Bool
  blinkCounter : Int
  fadeUp : Bool
deriving DecidableEq, Repr

/-- Duty computed by `GpioLed::SetBrightness` (gpio_led.cc lines 148-158):
`LEDC_DUTY = 8191` for 100 percent, else `brightness * 8191 / 100` in
integer arithmetic. -/
def dutyOf (brightness : Nat) : Nat :=
  if brightness = 100 then 8191 else brightness * 8191 / 100

/-- `GpioLed::SetBrightness` (lines 148-158): assigns `duty_` and does
nothing else — no lock, no timer call, no LEDC call. -/
def gpioSetBrightness (s : GpioLedState) (brightness : Nat) : GpioLedState :=
  { s with duty := dutyOf brightness }

/-- `GpioLed::TurnOn` (lines 166-179): if initialized, stop the blink
timer, stop any fade, then set and update the LEDC duty to `duty_`. -/
def gpioTurnOn (s : GpioLedState) : GpioLedState :=
  if s.initialized then
    { s with blinkTimerOn := false, fadeActive := false, hwDuty := s.duty }
  else s

/-- Claim C9: `SetBrightness` alone only rewrites the stored target duty —
the hardware duty and every other field are untouched — and a subsequent
`TurnOn` is what copies the stored duty to the hardware (when the LEDC
peripheral was initialized; otherwise `TurnOn` is the guard's no-op). -/
theorem gpio_set_brightness_deferred (s : GpioLedState) (brightness : Nat) :
    gpioSetBrightness s brightness = { s with duty := dutyOf brightness } ∧
    (gpioSetBrightness s brightness).hwDuty = s.hwDuty ∧
    (gpioSetBrightness s brightness).initialized = s.initialized ∧
    (gpioSetBrightness s brightness).fadeActive = s.fadeActive ∧
    (gpioSetBrightness s brightness).blinkTimerOn = s.blinkTimerOn ∧
    (gpioSetBrightness s brightness).blinkCounter = s.blinkCounter ∧
    (gpioSetBrightness s brightness).fadeUp = s.fadeUp ∧
    (gpioTurnOn (gpioSetBrightness s brightness)).hwDuty
      = (if s.initialized then dutyOf brightness else s.hwDuty) := by
  refine ⟨rfl, rfl, rfl, rfl, rfl, rfl, rfl, ?_⟩
  unfold gpioTurnOn gpioSetBrightness
  dsimp only []
  by_cases h : s.initialized <;> simp [h]

/-- What the single WS2812 pixel of a `SingleLed` currently shows. -/
inductive LedOutput
  | off
  | on (r g b : Nat)
deriving DecidableEq, Repr

/-- State of a `SingleLed`: the configured color `r_,g_,b_`, the blink
counter, the blink timer flag, and the pixel output (single_led.h). -/
structure SingleLedState where
  r : Nat
  g : Nat
  b : Nat
  blinkCounter : Int
  timerOn : Bool
  output : LedOutput
deriving DecidableEq, Repr

/-- `SingleLed::StartBlinkTask` (single_led.cc lines 173-187): lock, stop
the timer, set `blink_counter_ = times * 2`, restart the periodic timer. -/
def startBlinkTask (s : SingleLedState) (times : Int) : SingleLedState :=
  { s with blinkCounter := times * 2, timerOn := true }

/-- `SingleLed::OnBlinkTimer` (single_led.cc lines 195-217): decrement the
counter; odd means show the configured color, even means clear the pixel,
and a counter that reaches exactly zero stops the timer.  (`counter & 1`
on a two's-complement int agrees with `emod 2 = 1`.) -/
def onBlinkTimer (s : SingleLedState) : SingleLedState :=
  let c := s.blinkCounter - 1
  if c % 2 = 1 then
    { s with blinkCounter := c, output := LedOutput.on s.r s.g s.b }
  else
    { s with blinkCounter := c, output := LedOutput.off
             timerOn := if c = 0 then false else s.timerOn }

theorem onBlinkTimer_fields (s : SingleLedState) :
    (onBlinkTimer s).blinkCounter = s.blinkCounter - 1 ∧
    (onBlinkTimer s).r = s.r ∧ (onBlinkTimer s).g = s.g ∧ (onBlinkTimer s).b = s.b := by
  unfold onBlinkTimer
  dsimp only []
  split <;> exact ⟨rfl, rfl, rfl, rfl⟩

theorem onBlinkTimer_odd (s : SingleLedState)
    (h : (s.blinkCounter - 1) % 2 = 1) :
    (onBlinkTimer s).output = LedOutput.on s.r s.g s.b ∧
    (onBlinkTimer s).timerOn = s.timerOn := by
  unfold onBlinkTimer
  dsimp only []
  rw [if_pos h]
  exact ⟨rfl, rfl⟩

theorem onBlinkTimer_even (s : SingleLedState)
    (h : ¬ (s.blinkCounter - 1) % 2 = 1) :
    (onBlinkTimer s).output = LedOutput.off ∧
    (onBlinkTimer s).timerOn = (if s.blinkCounter - 1 = 0 then false else s.timerOn) := by
  unfold onBlinkTimer
  dsimp only []
  rw [if_neg h]
  exact ⟨rfl, rfl⟩

theorem blink_task_invariant (s : SingleLedState) (t : Nat) (ht : 0 < t) :
    ∀ k : Nat, k ≤ 2 * t →
      (onBlinkTimer^[k] (startBlinkTask s (t : Int))).blinkCounter = 2 * (t : Int) - k ∧
      (onBlinkTimer^[k] (startBlinkTask s (t : Int))).timerOn = decide (k < 2 * t) ∧
      (onBlinkTimer^[k] (startBlinkTask s (t : Int))).r = s.r ∧
      (onBlinkTimer^[k] (startBlinkTask s (t : Int))).g = s.g ∧
      (onBlinkTimer^[k] (startBlinkTask s (t : Int))).b = s.b ∧
      (k = 0 ∨
        (onBlinkTimer^[k] (startBlinkTask s (t : Int))).output
          = (if (2 * (t : Int) - k) % 2 = 1 then LedOutput.on s.r s.g s.b
              else LedOutput.off)) := by
  intro k
  induction k with
  | zero =>
      intro _
      refine ⟨?_, ?_, rfl, rfl, rfl, Or.inl rfl⟩
      · show (t : Int) * 2 = 2 * (t : Int) - 0
        ring
      · show true = decide (0 < 2 * t)
        have h02 : 0 < 2 * t := by omega
        simp [h02]
  | succ k ih =>
      intro hk1
      have hk : k ≤ 2 * t := Nat.le_of_succ_le hk1
      obtain ⟨hc, hto, hr, hg, hb, _⟩ := ih hk
      rw [Function.iterate_succ_apply']
      have hcnew :
          (onBlinkTimer^[k] (startBlinkTask s (t : Int))).blinkCounter - 1
            = 2 * (t : Int) - (k + 1 : Nat) := by
        rw [hc]
        push_cast
        ring
      have hfields := onBlinkTimer_fields (onBlinkTimer^[k] (startBlinkTask s (t : Int)))
      by_cases hodd :
          ((onBlinkTimer^[k] (startBlinkTask s (t : Int))).blinkCounter - 1) % 2 = 1
      · have hstep := onBlinkTimer_odd _ hodd
        have hlt : (k : Nat) + 1 < 2 * t := by
          rw [hcnew] at hodd
          omega
        refine ⟨?_, ?_, ?_, ?_, ?_, Or.inr ?_⟩
        · rw [hfields.1, hcnew]
        · rw [hstep.2, hto, decide_eq_decide]
          omega
        · rw [hfields.2.1, hr]
        · rw [hfields.2.2.1, hg]
        · rw [hfields.2.2.2, hb]
        · rw [hstep.1, hr, hg, hb]
          rw [hcnew] at hodd
          rw [if_pos hodd]
      · have hstep := onBlinkTimer_even _ hodd
        refine ⟨?_, ?_, ?_, ?_, ?_, Or.inr ?_⟩
        · rw [hfields.1, hcnew]
        · rw [hstep.2, hto, hcnew]
          by_cases hz : 2 * (t : Int) - (k + 1 : Nat) = 0
          · rw [if_pos hz]
            have : ¬ ((k : Nat) + 1 < 2 * t) := by omega
            simp [this]
          · rw [if_neg hz]
            rw [decide_eq_decide]
            omega
        · rw [hfields.2.1, hr]
        · rw [hfields.2.2.1, hg]
        · rw [hfields.2.2.2, hb]
        · rw [hstep.1]
          rw [hcnew] at hodd
          rw [if_neg hodd]

/-- Claim C10: for every `times > 0`, `SingleLed::Blink(times, interval)`
sets the blink counter to `2 * times`; every timer tick decrements it by
exactly one; from the first tick on, the LED shows the configured color
exactly when the (decremented) counter is odd and is cleared when it is
even; and after exactly `2 * times` ticks the counter is zero, the LED is
cleared, and the timer has stopped itself. -/
theorem single_blink_terminates (s : SingleLedState) (times : Nat) (ht : 0 < times) :
    (startBlinkTask s (times : Int)).blinkCounter = 2 * (times : Int) ∧
    (∀ k : Nat,
      (onBlinkTimer^[k + 1] (startBlinkTask s (times : Int))).blinkCounter
        = (onBlinkTimer^[k] (startBlinkTask s (times : Int))).blinkCounter - 1) ∧
    (∀ k : Nat, 1 ≤ k → k ≤ 2 * times →
      (onBlinkTimer^[k] (startBlinkTask s (times : Int))).output
        = (if (onBlinkTimer^[k] (startBlinkTask s (times : Int))).blinkCounter % 2 = 1
            then LedOutput.on s.r s.g s.b else LedOutput.off)) ∧
    (onBlinkTimer^[2 * times] (startBlinkTask s (times : Int))).blinkCounter = 0 ∧
    (onBlinkTimer^[2 * times] (startBlinkTask s (times : Int))).output = LedOutput.off ∧
    (onBlinkTimer^[2 * times] (startBlinkTask s (times : Int))).timerOn = false := by
  have hfin := blink_task_invariant s times ht (2 * times) (le_refl _)
  refine ⟨?_, ?_, ?_, ?_, ?_, ?_⟩
  · show (times : Int) * 2 = 2 * (times : Int)
    ring
  · intro k
    rw [Function.iterate_succ_apply']
    exact (onBlinkTimer_fields _).1
  · intro k hk1 hk2
    obtain ⟨hc, _, _, _, _, hout⟩ := blink_task_invariant s times ht k hk2
    rcases hout with h0 | hout
    · omega
    · rw [hout, hc]
  · rw [hfin.1]
    push_cast
    ring
  · rcases hfin.2.2.2.2.2 with h0 | hout
    · omega
    · rw [hout]
      have hzero : (2 * (times : Int) - (2 * times : Nat)) = 0 := by
        push_cast
        ring
      rw [hzero]
      norm_num
  · rw [hfin.2.1]
    simp

/-- Witness for C10: a concrete single blink (`times = 1`) on a concrete
initial state ends after two ticks with counter zero, the LED cleared and
the timer stopped. -/
theorem single_blink_terminates_witness :
    (onBlinkTimer^[2 * 1]
      (startBlinkTask ⟨7, 8, 9, 0, false, LedOutput.off⟩ ((1 : Nat) : Int))).blinkCounter
        = 0 ∧
    (onBlinkTimer^[2 * 1]
      (startBlinkTask ⟨7, 8, 9, 0, false, LedOutput.off⟩ ((1 : Nat) : Int))).output
        = LedOutput.off ∧
    (onBlinkTimer^[2 * 1]
      (startBlinkTask ⟨7, 8, 9, 0, false, LedOutput.off⟩ ((1 : Nat) : Int))).timerOn
        = false :=
  (single_blink_terminates ⟨7, 8, 9, 0, false, LedOutput.off⟩ 1 (by decide)).2.2.2
